import Mathlib

/-!
Shallow embedding of the tracer core of the Go APM agent (`tracer.go`).

The subject is the single-actor event loop `Tracer.loop`: it owns two queues
(`transactions`, `errors`), multiplexes configuration updates, producer
ingress, a flush timer and forced flushes, and invokes the sender, which
calls the Transport and updates statistics.

Modelling choices:
* Transactions and errors are identified by natural numbers; record
  mutation (reset, id assignment, context building) is tracked only through
  the observable effects the claims speak about (pool returns, transport
  calls, enrichment attempts, processor invocations).
* Channels are replaced by per-iteration environment data (`Env`): the
  contents of the buffered channels at the moment the loop drains them, and
  the outcome of each Transport call (`true` = the Go call returned nil).
* The select statement becomes an `Event` type; one loop iteration is the
  function `loopStep`.  Cases that `continue` before the send phase return
  directly; the common tail of the iteration is `sendPhase`.
* Go `int` is `Int`; `uint64` counters are `Nat` (the claims are about
  exact small increments, far from wrap-around).
* The stacktrace context setter is an oracle `Nat → Bool` giving, per
  record, whether `setContext` succeeds; a processor is the list of
  identifiers of the composed processors.
-/

abbrev Tx := Nat
abbrev Err := Nat

/-- Per-batch transport-error counters of `TracerStats`
(`Errors.SetContext`, `Errors.SendTransactions`, `Errors.SendErrors`). -/
structure TracerStatsErrors where
  SetContext : Nat := 0
  SendTransactions : Nat := 0
  SendErrors : Nat := 0
deriving DecidableEq

/-- Modelled from the spec: the stats structure is not under `src/`; §4.4
lists the counters `TransactionsSent`, `TransactionsDropped`, `ErrorsSent`,
`ErrorsDropped` and the transport-error counters. -/
structure TracerStats where
  Errors : TracerStatsErrors := {}
  ErrorsSent : Nat := 0
  ErrorsDropped : Nat := 0
  TransactionsSent : Nat := 0
  TransactionsDropped : Nat := 0
deriving DecidableEq

/-- Modelled from the spec: accumulation of stats deltas is additive,
field by field (§4.4 "Accumulation is additive (monotonic)"). -/
def TracerStats.accumulate (a b : TracerStats) : TracerStats :=
  { Errors := { SetContext := a.Errors.SetContext + b.Errors.SetContext
                SendTransactions := a.Errors.SendTransactions + b.Errors.SendTransactions
                SendErrors := a.Errors.SendErrors + b.Errors.SendErrors }
    ErrorsSent := a.ErrorsSent + b.ErrorsSent
    ErrorsDropped := a.ErrorsDropped + b.ErrorsDropped
    TransactionsSent := a.TransactionsSent + b.TransactionsSent
    TransactionsDropped := a.TransactionsDropped + b.TransactionsDropped }

/-- Modelled from the spec: `isZero` tests whether a stats delta is the
zero delta (the loop commits the per-iteration delta only when non-zero). -/
def TracerStats.isZero (s : TracerStats) : Bool :=
  s.Errors.SetContext == 0 && s.Errors.SendTransactions == 0 &&
  s.Errors.SendErrors == 0 && s.ErrorsSent == 0 && s.ErrorsDropped == 0 &&
  s.TransactionsSent == 0 && s.TransactionsDropped == 0

/-- The loop-local state of `Tracer.loop`: the loop variables
(`flushInterval`, `flushed`, `maxTransactionQueueSize`,
`maxErrorQueueSize`, `flushC`, `transactions`, `errors`), the gating of
the error-ingress and force-flush select cases (`errorsC`/`forceFlush`
being nil in Go), the sender's configuration fields, and the shared
`t.stats` the loop commits into. -/
structure LoopState where
  flushInterval : Nat
  flushed : Bool
  maxTransactionQueueSize : Int
  maxErrorQueueSize : Int
  flushC : Bool
  transactions : List Tx
  errors : List Err
  errorsCEnabled : Bool
  forceFlushEnabled : Bool
  preContext : Int
  postContext : Int
  contextSetter : Option (Nat → Bool)
  processor : Option (List Nat)
  loggerSet : Bool
  stats : TracerStats

/-- Observable effects of one loop iteration: records reset and returned
to their pools, Transport calls with their batches and outcomes, context
enrichment attempts, processor invocations, whether the transaction send
branch ran, the iteration's `statsUpdates` value, and whether the pending
flush-completion channel was signaled. -/
structure Effects where
  pooledTxs : List Tx := []
  pooledErrs : List Err := []
  txCalls : List (List Tx × Bool) := []
  errCalls : List (List Err × Bool) := []
  ctxAttemptsTx : List Tx := []
  ctxAttemptsErr : List Err := []
  procTxCalls : List (Tx × Nat) := []
  procErrCalls : List (Err × Nat) := []
  txSendAttempted : Bool := false
  statsDelta : TracerStats := {}
  flushedSignaled : Bool := false
deriving DecidableEq

/-- Per-iteration environment: the buffered channel contents at drain
time and the Transport outcomes (`true` = the Go Transport call returned
a nil error). -/
structure Env where
  errChannel : List Err := []
  txChannel : List Tx := []
  txSendOk : Bool := false
  errSendOk : Bool := false

/-- The closure `receivedTransaction` of `Tracer.loop` (tracer.go:361-375):
drop-oldest append.  Returns the new queue, the number of dropped
(evicted) transactions charged to `TransactionsDropped`, and the evicted
transactions that are reset and returned to the pool. -/
def receivedTransaction (maxTransactionQueueSize : Int) (transactions : List Tx)
    (tx : Tx) : List Tx × Nat × List Tx :=
  if 0 < maxTransactionQueueSize ∧ maxTransactionQueueSize ≤ (transactions.length : Int) then
    let n : Nat := ((transactions.length : Int) - maxTransactionQueueSize + 1).toNat
    (transactions.drop n ++ [tx], n, transactions.take n)
  else
    (transactions ++ [tx], 0, [])

/-- The closure `startTimer` of `Tracer.loop` (tracer.go:347-360): arm the
flush timer unless it is already pending. -/
def startTimer (s : LoopState) : LoopState :=
  if s.flushC then s else { s with flushC := true }

/-- The enrichment loop of the sender (tracer.go:502-508 and 549-555):
`setContext` is attempted on each record in order and the loop breaks at
the first failure.  Returns the records on which `setContext` was
invoked. -/
def setContextAttempts (f : Nat → Bool) : List Nat → List Nat
  | [] => []
  | r :: rs => if f r then r :: setContextAttempts f rs else [r]

/-- The per-record processor invocations of the sender: for each record in
order, the composed processors are invoked in order (record, processor). -/
def procInvocations (ps : List Nat) : List Nat → List (Nat × Nat)
  | [] => []
  | r :: rs => ps.map (fun p => (r, p)) ++ procInvocations ps rs

/-- `sender.sendTransactions` (tracer.go:498-541).  Returns whether the
batch was successfully sent, the stats delta, and the effects (enrichment
attempts, processor invocations, the Transport call).  `transportOk`
stands for `Transport.SendTransactions` returning nil. -/
def LoopState.sendTransactions (s : LoopState) (transactions : List Tx)
    (transportOk : Bool) : Bool × TracerStats × Effects :=
  if transactions.isEmpty then (false, {}, {})
  else
    let setCtxDelta : Nat :=
      match s.contextSetter with
      | none => 0
      | some f => if transactions.all f then 0 else 1
    let attempts : List Tx :=
      match s.contextSetter with
      | none => []
      | some f => setContextAttempts f transactions
    let procCalls : List (Tx × Nat) :=
      match s.processor with
      | none => []
      | some ps => procInvocations ps transactions
    if transportOk then
      (true,
       { Errors := { SetContext := setCtxDelta }, TransactionsSent := transactions.length },
       { ctxAttemptsTx := attempts, procTxCalls := procCalls,
         txCalls := [(transactions, true)] })
    else
      (false,
       { Errors := { SetContext := setCtxDelta, SendTransactions := 1 } },
       { ctxAttemptsTx := attempts, procTxCalls := procCalls,
         txCalls := [(transactions, false)] })

/-- `sender.sendErrors` (tracer.go:545-594), mirrored from
`sendTransactions` with the error-side counters and effects. -/
def LoopState.sendErrors (s : LoopState) (errors : List Err)
    (transportOk : Bool) : Bool × TracerStats × Effects :=
  if errors.isEmpty then (false, {}, {})
  else
    let setCtxDelta : Nat :=
      match s.contextSetter with
      | none => 0
      | some f => if errors.all f then 0 else 1
    let attempts : List Err :=
      match s.contextSetter with
      | none => []
      | some f => setContextAttempts f errors
    let procCalls : List (Err × Nat) :=
      match s.processor with
      | none => []
      | some ps => procInvocations ps errors
    if transportOk then
      (true,
       { Errors := { SetContext := setCtxDelta }, ErrorsSent := errors.length },
       { ctxAttemptsErr := attempts, procErrCalls := procCalls,
         errCalls := [(errors, true)] })
    else
      (false,
       { Errors := { SetContext := setCtxDelta, SendErrors := 1 } },
       { ctxAttemptsErr := attempts, procErrCalls := procCalls,
         errCalls := [(errors, false)] })

/-- The drain of the buffered transactions channel on a forced flush
(tracer.go:429-432): each buffered transaction goes through
`receivedTransaction`.  Returns the final queue, the total dropped count,
and all evicted (pooled) transactions in order. -/
def drainTxChannel (maxTransactionQueueSize : Int) :
    List Tx → List Tx → List Tx × Nat × List Tx
  | q, [] => (q, 0, [])
  | q, tx :: rest =>
      let r := receivedTransaction maxTransactionQueueSize q tx
      let d := drainTxChannel maxTransactionQueueSize r.1 rest
      (d.1, r.2.1 + d.2.1, r.2.2 ++ d.2.2)

/-- The opportunistic drain of the errors channel at the start of the
send phase (tracer.go:441-447): the error queue extended by up to
`remainder = maxErrorQueueSize - len(errors)` buffered errors, in order;
nothing is drained when the headroom is not positive. -/
def drainedErrors (s0 : LoopState) (env : Env) : List Err :=
  let remainder : Int := s0.maxErrorQueueSize - (s0.errors.length : Int)
  s0.errors ++ (if 0 < remainder then env.errChannel.take remainder.toNat else [])

/-- The iteration's final `statsUpdates` value: the delta accumulated by
the select case (`delta0`), plus the delta of the `sendErrors` attempt,
plus — when the `sendTransactions` flag is set — the delta of the
`sendTransactions` attempt. -/
def sendPhaseDelta (s0 : LoopState) (st : Bool) (d0 : TracerStats) (env : Env) : TracerStats :=
  let er := s0.sendErrors (drainedErrors s0 env) env.errSendOk
  let tx := s0.sendTransactions s0.transactions env.txSendOk
  if st then (d0.accumulate er.2.1).accumulate tx.2.1 else d0.accumulate er.2.1

/-- The loop state after the send attempts and the stats commit of
tracer.go:448-472, before the retry/signal branching: the error queue is
cleared and `errorsC` re-enabled on a successful `sendErrors`, retained
with `errorsC` disabled when the failed queue sits exactly at the cap;
the transaction queue is cleared on a successful flagged
`sendTransactions`; the delta is committed into the shared stats when
non-zero. -/
def sendPhaseState (s0 : LoopState) (st : Bool) (d0 : TracerStats) (env : Env) : LoopState :=
  let errorsQ := drainedErrors s0 env
  let er := s0.sendErrors errorsQ env.errSendOk
  let s1 :=
    if er.1 then { s0 with errors := [], errorsCEnabled := true }
    else if (errorsQ.length : Int) = s0.maxErrorQueueSize then
      { s0 with errors := errorsQ, errorsCEnabled := false }
    else { s0 with errors := errorsQ }
  let tx := s0.sendTransactions s0.transactions env.txSendOk
  let txOk : Bool := st && tx.1
  let s2 := if txOk then { s1 with transactions := [] } else s1
  let delta := sendPhaseDelta s0 st d0 env
  if delta.isZero then s2 else { s2 with stats := s2.stats.accumulate delta }

/-- The observable effects of the send phase: pool returns from a
successful send (plus the evictions `pooled0` charged by the select
case), the Transport calls, enrichment attempts and processor
invocations of the attempted sends, and the iteration's delta. -/
def sendPhaseEffects (s0 : LoopState) (st : Bool) (d0 : TracerStats)
    (p0 : List Tx) (env : Env) : Effects :=
  let errorsQ := drainedErrors s0 env
  let er := s0.sendErrors errorsQ env.errSendOk
  let tx := s0.sendTransactions s0.transactions env.txSendOk
  let txOk : Bool := st && tx.1
  { pooledTxs := p0 ++ (if txOk then s0.transactions else [])
    pooledErrs := if er.1 then errorsQ else []
    txCalls := if st then tx.2.2.txCalls else []
    errCalls := er.2.2.errCalls
    ctxAttemptsTx := if st then tx.2.2.ctxAttemptsTx else []
    ctxAttemptsErr := er.2.2.ctxAttemptsErr
    procTxCalls := if st then tx.2.2.procTxCalls else []
    procErrCalls := er.2.2.procErrCalls
    txSendAttempted := st
    statsDelta := sendPhaseDelta s0 st d0 env
    flushedSignaled := false }

/-- The common tail of a loop iteration (tracer.go:441-484): drain the
errors channel, attempt both sends and commit stats
(`sendPhaseState`/`sendPhaseEffects`); on a recorded send failure arm the
retry timer and continue; otherwise, if the transaction send ran and a
flush completion is pending, signal it and re-enable the force-flush
select case.  `st` is the iteration's `sendTransactions` flag, `d0` the
`statsUpdates` accumulated by the select case, `p0` the transactions the
select case already evicted to the pool. -/
def sendPhase (s0 : LoopState) (st : Bool) (d0 : TracerStats)
    (p0 : List Tx) (env : Env) : LoopState × Effects :=
  let delta := sendPhaseDelta s0 st d0 env
  let s3 := sendPhaseState s0 st d0 env
  let eff := sendPhaseEffects s0 st d0 p0 env
  if !delta.isZero && (delta.Errors.SendTransactions != 0 || delta.Errors.SendErrors != 0) then
    (startTimer s3, eff)
  else if st && s3.flushed then
    ({ s3 with forceFlushEnabled := true, flushed := false },
     { eff with flushedSignaled := true })
  else (s3, eff)

/-- The select cases of `Tracer.loop` (tracer.go:381-439).  Constructors
carry the value received on the corresponding channel; `errorArrival`,
`flushTimer` and `forceFlush` are only operative when the corresponding
select case is enabled (`errorsC`, `flushC`, `forceFlush` non-nil). -/
inductive Event where
  | setFlushInterval (d : Nat)
  | setMaxTransactionQueueSize (n : Int)
  | setMaxErrorQueueSize (n : Int)
  | setPreContext (n : Int)
  | setPostContext (n : Int)
  | setContextSetter (f : Option (Nat → Bool))
  | setLogger (b : Bool)
  | setProcessor (p : Option (List Nat))
  | errorArrival (e : Err)
  | txArrival (tx : Tx)
  | flushTimer
  | forceFlush

/-- One iteration of `Tracer.loop` (tracer.go:377-485): handle exactly one
event; configuration cases mostly `continue`; the others fall through to
`sendPhase`.  An event whose select case is disabled leaves the state
unchanged (the Go select cannot fire it). -/
def loopStep (s : LoopState) (e : Event) (env : Env) : LoopState × Effects :=
  match e with
  | .setFlushInterval d => ({ s with flushInterval := d }, {})
  | .setMaxTransactionQueueSize n =>
      if n ≤ 0 ∨ (s.transactions.length : Int) < n then
        ({ s with maxTransactionQueueSize := n }, {})
      else sendPhase { s with maxTransactionQueueSize := n } false {} [] env
  | .setMaxErrorQueueSize n =>
      if n ≤ 0 ∨ (s.errors.length : Int) < n then
        ({ s with maxErrorQueueSize := n, errorsCEnabled := true }, {})
      else ({ s with maxErrorQueueSize := n }, {})
  | .setPreContext n => ({ s with preContext := n }, {})
  | .setPostContext n => ({ s with postContext := n }, {})
  | .setContextSetter f => ({ s with contextSetter := f }, {})
  | .setLogger b => ({ s with loggerSet := b }, {})
  | .setProcessor p => ({ s with processor := p }, {})
  | .errorArrival err =>
      if s.errorsCEnabled then
        sendPhase { s with errors := s.errors ++ [err] } false {} [] env
      else (s, {})
  | .txArrival tx =>
      let r := receivedTransaction s.maxTransactionQueueSize s.transactions tx
      let s1 := { s with transactions := r.1 }
      let delta : TracerStats := { TransactionsDropped := r.2.1 }
      if r.1.length = s.transactions.length ∧ s.flushC = true then
        ({ s1 with stats := s1.stats.accumulate delta },
         { pooledTxs := r.2.2, statsDelta := delta })
      else if s.maxTransactionQueueSize ≤ 0 ∨ (r.1.length : Int) < s.maxTransactionQueueSize then
        (startTimer s1, { pooledTxs := r.2.2, statsDelta := delta })
      else sendPhase s1 true delta r.2.2 env
  | .flushTimer =>
      if s.flushC then sendPhase { s with flushC := false } true {} [] env
      else (s, {})
  | .forceFlush =>
      if s.forceFlushEnabled then
        let d := drainTxChannel s.maxTransactionQueueSize s.transactions env.txChannel
        sendPhase
          { s with transactions := d.1, forceFlushEnabled := false,
                   flushed := true, flushC := false }
          true { TransactionsDropped := d.2.1 } d.2.2 env
      else (s, {})

/-- The loop-local state at the top of `Tracer.loop`, before the
constructor delivers the initial configuration (all Go zero values; both
the error-ingress and force-flush select cases enabled). -/
def initState : LoopState :=
  { flushInterval := 0, flushed := false, maxTransactionQueueSize := 0,
    maxErrorQueueSize := 0, flushC := false, transactions := [], errors := [],
    errorsCEnabled := true, forceFlushEnabled := true, preContext := 0,
    postContext := 0, contextSetter := none, processor := none,
    loggerSet := false, stats := {} }

/-- The error queue right after the select case is handled, before the
channel drain (the appended error for an error arrival, unchanged
otherwise). -/
def errorsAfterSelect (s : LoopState) (e : Event) : List Err :=
  match e with
  | .errorArrival err => s.errors ++ [err]
  | _ => s.errors

/-- Whether handling event `e` in state `s` falls through to the send
phase of the iteration rather than continuing back to the select (mirrors
the negations of the `continue` conditions of each select case). -/
def reachesSendPhase (s : LoopState) (e : Event) : Prop :=
  match e with
  | .setMaxTransactionQueueSize n => ¬(n ≤ 0 ∨ (s.transactions.length : Int) < n)
  | .errorArrival _ => s.errorsCEnabled = true
  | .txArrival tx =>
      let r := receivedTransaction s.maxTransactionQueueSize s.transactions tx
      ¬(r.1.length = s.transactions.length ∧ s.flushC = true) ∧
      ¬(s.maxTransactionQueueSize ≤ 0 ∨ (r.1.length : Int) < s.maxTransactionQueueSize)
  | .flushTimer => s.flushC = true
  | .forceFlush => s.forceFlushEnabled = true
  | _ => False

/-- The error batch a send-phase iteration submits to `sendErrors`: the
error queue after the select case, extended by the channel drain up to
the remaining headroom `maxErrorQueueSize - len(errors)`
(tracer.go:441-448). -/
def errorBatch (s : LoopState) (e : Event) (env : Env) : List Err :=
  errorsAfterSelect s e ++
    (if 0 < s.maxErrorQueueSize - ((errorsAfterSelect s e).length : Int) then
       env.errChannel.take (s.maxErrorQueueSize - ((errorsAfterSelect s e).length : Int)).toNat
     else [])

/-- Invariant of the error queue established by the loop: the cap is
respected whenever positive, and the error-ingress select case is enabled
only with strict headroom. -/
def ErrInv (s : LoopState) : Prop :=
  (0 < s.maxErrorQueueSize → (s.errors.length : Int) ≤ s.maxErrorQueueSize) ∧
  (s.errorsCEnabled = true → 0 < s.maxErrorQueueSize →
    (s.errors.length : Int) < s.maxErrorQueueSize)

/-- Invariant tying the pending flush-completion signal to the disabled
force-flush select case. -/
def FlushInv (s : LoopState) : Prop :=
  s.flushed = true → s.forceFlushEnabled = false

/-- The transactions evicted to the pool by the drop-oldest policy while
handling event `e` (from `receivedTransaction`, directly on a transaction
arrival or through the channel drain of a forced flush). -/
def evictedTxs (s : LoopState) (e : Event) (env : Env) : List Tx :=
  match e with
  | .txArrival tx => (receivedTransaction s.maxTransactionQueueSize s.transactions tx).2.2
  | .forceFlush =>
      if s.forceFlushEnabled then
        (drainTxChannel s.maxTransactionQueueSize s.transactions env.txChannel).2.2
      else []
  | _ => []

/-- The concatenation of the batches of the successful Transport calls in
a call list. -/
def okBatches : List (List Nat × Bool) → List Nat
  | [] => []
  | (b, ok) :: rest => (if ok then b else []) ++ okBatches rest

/-- Modelled from the spec: the `Processors` type (not under `src/`)
composes a list of processors into one that invokes each in order per
record (§6 "invoked once per record"); it is represented by the list of
its components. -/
def Processors (ps : List Nat) : List Nat := ps

/-- The facade `SetProcessor` (tracer.go:277-288): with no arguments the
processor sent to the loop is nil; otherwise it is the composition
`Processors p`. -/
def setProcessorArg (ps : List Nat) : Option (List Nat) :=
  if 0 < ps.length then some (Processors ps) else none

/-- States of the loop reachable from `initState` under event traces whose
`setMaxErrorQueueSize` reconfigurations never set a positive cap at or
below the current error-queue length. -/
def GoodErrEvent (s : LoopState) (e : Event) : Prop :=
  ∀ n, e = .setMaxErrorQueueSize n → n ≤ 0 ∨ (s.errors.length : Int) < n

inductive ReachableG : LoopState → Prop
  | init : ReachableG initState
  | step {s : LoopState} (e : Event) (env : Env) :
      ReachableG s → GoodErrEvent s e → ReachableG (loopStep s e env).1

/-- States of the loop reachable from `initState` under arbitrary event
traces. -/
inductive ReachableAll : LoopState → Prop
  | init : ReachableAll initState
  | step {s : LoopState} (e : Event) (env : Env) :
      ReachableAll s → ReachableAll (loopStep s e env).1

example :
    (receivedTransaction 3 [0, 1, 2] 9).1 = [1, 2, 9] ∧
    (receivedTransaction 3 [0, 1, 2] 9).2.1 = 1 ∧
    (receivedTransaction 3 [0, 1, 2] 9).2.2 = [0] := by decide

example : (receivedTransaction 0 [0, 1, 2] 9).1 = [0, 1, 2, 9] := by decide

theorem receivedTransaction_not_full (max : Int) (txs : List Tx) (tx : Tx)
    (h : ¬(0 < max ∧ max ≤ (txs.length : Int))) :
    receivedTransaction max txs tx = (txs ++ [tx], 0, []) := by
  unfold receivedTransaction
  rw [if_neg h]

theorem receivedTransaction_full (max : Int) (txs : List Tx) (tx : Tx)
    (h1 : 0 < max) (h2 : max ≤ (txs.length : Int)) :
    receivedTransaction max txs tx =
      (txs.drop ((txs.length : Int) - max + 1).toNat ++ [tx],
       ((txs.length : Int) - max + 1).toNat,
       txs.take ((txs.length : Int) - max + 1).toNat) := by
  unfold receivedTransaction
  rw [if_pos ⟨h1, h2⟩]

theorem receivedTransaction_saturated (max : Int) (txs : List Tx) (tx : Tx)
    (h1 : 0 < max) (h2 : (txs.length : Int) = max) :
    receivedTransaction max txs tx = (txs.drop 1 ++ [tx], 1, txs.take 1) := by
  have hn : ((txs.length : Int) - max + 1).toNat = 1 := by omega
  rw [receivedTransaction_full max txs tx h1 (by omega), hn]

theorem receivedTransaction_length_le (max : Int) (txs : List Tx) (tx : Tx)
    (hmax : 0 < max) :
    (((receivedTransaction max txs tx).1.length : Int)) ≤ max := by
  by_cases h : 0 < max ∧ max ≤ (txs.length : Int)
  · rw [receivedTransaction_full max txs tx h.1 h.2]
    simp only [List.length_append, List.length_drop, List.length_cons, List.length_nil]
    omega
  · rw [receivedTransaction_not_full max txs tx h]
    simp only [List.length_append, List.length_cons, List.length_nil]
    omega

theorem sendTransactions_dropped_zero (s : LoopState) (l : List Tx) (ok : Bool) :
    (s.sendTransactions l ok).2.1.TransactionsDropped = 0 := by
  unfold LoopState.sendTransactions
  split_ifs <;> rfl

theorem sendErrors_dropped_zero (s : LoopState) (l : List Err) (ok : Bool) :
    (s.sendErrors l ok).2.1.TransactionsDropped = 0 := by
  unfold LoopState.sendErrors
  split_ifs <;> rfl

theorem accumulate_dropped (a b : TracerStats) :
    (a.accumulate b).TransactionsDropped = a.TransactionsDropped + b.TransactionsDropped := rfl

theorem sendPhase_fst_cases (s0 : LoopState) (st : Bool) (d0 : TracerStats)
    (p0 : List Tx) (env : Env) :
    (sendPhase s0 st d0 p0 env).1 = startTimer (sendPhaseState s0 st d0 env) ∨
    (sendPhase s0 st d0 p0 env).1 =
      { sendPhaseState s0 st d0 env with forceFlushEnabled := true, flushed := false } ∨
    (sendPhase s0 st d0 p0 env).1 = sendPhaseState s0 st d0 env := by
  unfold sendPhase
  dsimp only
  split
  · exact Or.inl rfl
  · split
    · exact Or.inr (Or.inl rfl)
    · exact Or.inr (Or.inr rfl)

theorem sendPhase_snd_cases (s0 : LoopState) (st : Bool) (d0 : TracerStats)
    (p0 : List Tx) (env : Env) :
    (sendPhase s0 st d0 p0 env).2 = sendPhaseEffects s0 st d0 p0 env ∨
    (sendPhase s0 st d0 p0 env).2 =
      { sendPhaseEffects s0 st d0 p0 env with flushedSignaled := true } := by
  unfold sendPhase
  dsimp only
  split
  · exact Or.inl rfl
  · split
    · exact Or.inr rfl
    · exact Or.inl rfl

theorem sendPhase_statsDelta (s0 : LoopState) (st : Bool) (d0 : TracerStats)
    (p0 : List Tx) (env : Env) :
    (sendPhase s0 st d0 p0 env).2.statsDelta = sendPhaseDelta s0 st d0 env := by
  rcases sendPhase_snd_cases s0 st d0 p0 env with h | h <;> rw [h] <;> rfl

theorem sendPhaseDelta_dropped (s0 : LoopState) (st : Bool) (d0 : TracerStats) (env : Env) :
    (sendPhaseDelta s0 st d0 env).TransactionsDropped = d0.TransactionsDropped := by
  unfold sendPhaseDelta
  dsimp only
  split <;>
    simp [accumulate_dropped, sendTransactions_dropped_zero, sendErrors_dropped_zero]

theorem sendPhaseState_flushed (s0 : LoopState) (st : Bool) (d0 : TracerStats) (env : Env) :
    (sendPhaseState s0 st d0 env).flushed = s0.flushed := by
  unfold sendPhaseState
  dsimp only
  split_ifs <;> rfl

theorem sendPhaseState_forceFlushEnabled (s0 : LoopState) (st : Bool) (d0 : TracerStats)
    (env : Env) :
    (sendPhaseState s0 st d0 env).forceFlushEnabled = s0.forceFlushEnabled := by
  unfold sendPhaseState
  dsimp only
  split_ifs <;> rfl

theorem sendPhaseState_flushC (s0 : LoopState) (st : Bool) (d0 : TracerStats) (env : Env) :
    (sendPhaseState s0 st d0 env).flushC = s0.flushC := by
  unfold sendPhaseState
  dsimp only
  split_ifs <;> rfl

theorem sendPhaseState_maxErr (s0 : LoopState) (st : Bool) (d0 : TracerStats) (env : Env) :
    (sendPhaseState s0 st d0 env).maxErrorQueueSize = s0.maxErrorQueueSize := by
  unfold sendPhaseState
  dsimp only
  split_ifs <;> rfl

theorem sendPhaseState_maxTx (s0 : LoopState) (st : Bool) (d0 : TracerStats) (env : Env) :
    (sendPhaseState s0 st d0 env).maxTransactionQueueSize = s0.maxTransactionQueueSize := by
  unfold sendPhaseState
  dsimp only
  split_ifs <;> rfl

theorem sendPhaseState_errors (s0 : LoopState) (st : Bool) (d0 : TracerStats) (env : Env) :
    (sendPhaseState s0 st d0 env).errors =
      (if (s0.sendErrors (drainedErrors s0 env) env.errSendOk).1 then []
       else drainedErrors s0 env) := by
  unfold sendPhaseState
  dsimp only
  split_ifs <;> simp_all

theorem sendPhaseState_errorsCEnabled (s0 : LoopState) (st : Bool) (d0 : TracerStats)
    (env : Env) :
    (sendPhaseState s0 st d0 env).errorsCEnabled =
      (if (s0.sendErrors (drainedErrors s0 env) env.errSendOk).1 then true
       else if ((drainedErrors s0 env).length : Int) = s0.maxErrorQueueSize then false
       else s0.errorsCEnabled) := by
  unfold sendPhaseState
  dsimp only
  split_ifs <;> simp_all

theorem sendPhaseState_transactions (s0 : LoopState) (st : Bool) (d0 : TracerStats)
    (env : Env) :
    (sendPhaseState s0 st d0 env).transactions =
      (if st && (s0.sendTransactions s0.transactions env.txSendOk).1 then []
       else s0.transactions) := by
  unfold sendPhaseState
  dsimp only
  split_ifs <;> simp_all

theorem sendTransactions_fst (s : LoopState) (l : List Tx) (ok : Bool) :
    (s.sendTransactions l ok).1 = (!l.isEmpty && ok) := by
  unfold LoopState.sendTransactions
  split_ifs <;> simp_all

theorem sendErrors_fst (s : LoopState) (l : List Err) (ok : Bool) :
    (s.sendErrors l ok).1 = (!l.isEmpty && ok) := by
  unfold LoopState.sendErrors
  split_ifs <;> simp_all

theorem sendTransactions_delta (s : LoopState) (l : List Tx) (ok : Bool) :
    (s.sendTransactions l ok).2.1 =
      if l.isEmpty then {}
      else
        { Errors :=
            { SetContext :=
                match s.contextSetter with
                | none => 0
                | some f => if l.all f then 0 else 1
              SendTransactions := if ok then 0 else 1 }
          TransactionsSent := if ok then l.length else 0 } := by
  unfold LoopState.sendTransactions
  split_ifs <;> simp_all

theorem sendErrors_delta (s : LoopState) (l : List Err) (ok : Bool) :
    (s.sendErrors l ok).2.1 =
      if l.isEmpty then {}
      else
        { Errors :=
            { SetContext :=
                match s.contextSetter with
                | none => 0
                | some f => if l.all f then 0 else 1
              SendErrors := if ok then 0 else 1 }
          ErrorsSent := if ok then l.length else 0 } := by
  unfold LoopState.sendErrors
  split_ifs <;> simp_all

theorem sendTransactions_effects (s : LoopState) (l : List Tx) (ok : Bool) :
    (s.sendTransactions l ok).2.2 =
      if l.isEmpty then {}
      else
        { ctxAttemptsTx :=
            match s.contextSetter with
            | none => []
            | some f => setContextAttempts f l
          procTxCalls :=
            match s.processor with
            | none => []
            | some ps => procInvocations ps l
          txCalls := [(l, ok)] } := by
  unfold LoopState.sendTransactions
  split_ifs <;> simp_all

theorem sendErrors_effects (s : LoopState) (l : List Err) (ok : Bool) :
    (s.sendErrors l ok).2.2 =
      if l.isEmpty then {}
      else
        { ctxAttemptsErr :=
            match s.contextSetter with
            | none => []
            | some f => setContextAttempts f l
          procErrCalls :=
            match s.processor with
            | none => []
            | some ps => procInvocations ps l
          errCalls := [(l, ok)] } := by
  unfold LoopState.sendErrors
  split_ifs <;> simp_all

theorem loopStep_txArrival_saturated (s : LoopState) (tx : Tx) (env : Env)
    (hmax : 0 < s.maxTransactionQueueSize)
    (hsat : (s.transactions.length : Int) = s.maxTransactionQueueSize)
    (htimer : s.flushC = true) :
    loopStep s (.txArrival tx) env =
      ({ s with transactions := s.transactions.drop 1 ++ [tx],
                stats := s.stats.accumulate { TransactionsDropped := 1 } },
       { pooledTxs := s.transactions.take 1,
         statsDelta := { TransactionsDropped := 1 } }) := by
  have hr := receivedTransaction_saturated s.maxTransactionQueueSize s.transactions tx hmax hsat
  have hlen : (s.transactions.drop 1 ++ [tx]).length = s.transactions.length := by
    simp only [List.length_append, List.length_drop, List.length_cons, List.length_nil]
    omega
  unfold loopStep
  dsimp only
  rw [hr]
  dsimp only
  rw [if_pos ⟨hlen, htimer⟩]

/-- C1: when `maxTransactionQueueSize` is positive and the queue already
holds at least that many transactions, the drop-oldest append of
`receivedTransaction` removes exactly `len - max + 1` oldest transactions
— returning exactly those, in order, to the pool — appends the new
transaction at the back, keeps the retained suffix in order, and reports
exactly that count, which the loop iteration charges to its
`TransactionsDropped` stats delta; and after every append the queue
length is at most `maxTransactionQueueSize`. -/
theorem claim_C1_transaction_drop_oldest (max : Int) (txs : List Tx) (tx : Tx)
    (hmax : 0 < max) :
    (max ≤ (txs.length : Int) →
      receivedTransaction max txs tx =
        (txs.drop ((txs.length : Int) - max + 1).toNat ++ [tx],
         ((txs.length : Int) - max + 1).toNat,
         txs.take ((txs.length : Int) - max + 1).toNat)) ∧
    (((receivedTransaction max txs tx).1.length : Int) ≤ max) ∧
    (∀ s env, s.maxTransactionQueueSize = max → s.transactions = txs →
      (loopStep s (.txArrival tx) env).2.statsDelta.TransactionsDropped =
        (receivedTransaction max txs tx).2.1) := by
  refine ⟨fun h2 => receivedTransaction_full max txs tx hmax h2,
          receivedTransaction_length_le max txs tx hmax, ?_⟩
  intro s env h1 h2
  subst h1
  subst h2
  unfold loopStep
  dsimp only
  split
  · rfl
  · split
    · rfl
    · rw [sendPhase_statsDelta, sendPhaseDelta_dropped]

theorem claim_C1_transaction_drop_oldest_witness :
    receivedTransaction 3 [10, 11, 12, 13] 9 = ([12, 13, 9], 2, [10, 11]) ∧
    ((receivedTransaction 3 [10, 11, 12, 13] 9).1.length : Int) ≤ 3 := by
  have h := claim_C1_transaction_drop_oldest 3 [10, 11, 12, 13] 9 (by decide)
  exact ⟨by rw [h.1 (by decide)]; decide, h.2.1⟩

/-- C3: a transaction arriving while the queue is saturated (the
drop-oldest append leaves the length unchanged) and the retry/flush timer
is pending only charges the single drop to the stats and returns to the
select: no Transport call is attempted, nothing is signaled, the timer
stays pending untouched, and the error queue is untouched. -/
theorem claim_C3_saturated_drop_keeps_retry (s : LoopState) (tx : Tx) (env : Env)
    (hmax : 0 < s.maxTransactionQueueSize)
    (hsat : (s.transactions.length : Int) = s.maxTransactionQueueSize)
    (htimer : s.flushC = true) :
    (loopStep s (.txArrival tx) env).2.txCalls = [] ∧
    (loopStep s (.txArrival tx) env).2.errCalls = [] ∧
    (loopStep s (.txArrival tx) env).2.flushedSignaled = false ∧
    (loopStep s (.txArrival tx) env).2.statsDelta = { TransactionsDropped := 1 } ∧
    (loopStep s (.txArrival tx) env).1.stats =
      s.stats.accumulate { TransactionsDropped := 1 } ∧
    (loopStep s (.txArrival tx) env).1.flushC = true ∧
    (loopStep s (.txArrival tx) env).1.transactions = s.transactions.drop 1 ++ [tx] ∧
    (loopStep s (.txArrival tx) env).1.errors = s.errors := by
  rw [loopStep_txArrival_saturated s tx env hmax hsat htimer]
  exact ⟨rfl, rfl, rfl, rfl, rfl, htimer, rfl, rfl⟩

theorem claim_C3_saturated_drop_keeps_retry_witness :
    (loopStep { initState with maxTransactionQueueSize := 1, transactions := [5],
                               flushC := true } (.txArrival 7) {}).2.txCalls = [] ∧
    (loopStep { initState with maxTransactionQueueSize := 1, transactions := [5],
                               flushC := true } (.txArrival 7) {}).2.errCalls = [] ∧
    (loopStep { initState with maxTransactionQueueSize := 1, transactions := [5],
                               flushC := true } (.txArrival 7) {}).2.flushedSignaled = false ∧
    (loopStep { initState with maxTransactionQueueSize := 1, transactions := [5],
                               flushC := true } (.txArrival 7) {}).2.statsDelta =
      { TransactionsDropped := 1 } ∧
    (loopStep { initState with maxTransactionQueueSize := 1, transactions := [5],
                               flushC := true } (.txArrival 7) {}).1.stats =
      ({ initState with maxTransactionQueueSize := 1, transactions := [5],
                        flushC := true } : LoopState).stats.accumulate
        { TransactionsDropped := 1 } ∧
    (loopStep { initState with maxTransactionQueueSize := 1, transactions := [5],
                               flushC := true } (.txArrival 7) {}).1.flushC = true ∧
    (loopStep { initState with maxTransactionQueueSize := 1, transactions := [5],
                               flushC := true } (.txArrival 7) {}).1.transactions =
      ({ initState with maxTransactionQueueSize := 1, transactions := [5],
                        flushC := true } : LoopState).transactions.drop 1 ++ [7] ∧
    (loopStep { initState with maxTransactionQueueSize := 1, transactions := [5],
                               flushC := true } (.txArrival 7) {}).1.errors =
      ({ initState with maxTransactionQueueSize := 1, transactions := [5],
                        flushC := true } : LoopState).errors :=
  claim_C3_saturated_drop_keeps_retry
    { initState with maxTransactionQueueSize := 1, transactions := [5], flushC := true }
    7 {} (by decide) (by decide) (by decide)

theorem startTimer_transactions (s : LoopState) :
    (startTimer s).transactions = s.transactions := by
  unfold startTimer
  split <;> rfl

theorem startTimer_flushed (s : LoopState) : (startTimer s).flushed = s.flushed := by
  unfold startTimer
  split <;> rfl

theorem startTimer_forceFlushEnabled (s : LoopState) :
    (startTimer s).forceFlushEnabled = s.forceFlushEnabled := by
  unfold startTimer
  split <;> rfl

theorem startTimer_errors (s : LoopState) : (startTimer s).errors = s.errors := by
  unfold startTimer
  split <;> rfl

theorem startTimer_errorsCEnabled (s : LoopState) :
    (startTimer s).errorsCEnabled = s.errorsCEnabled := by
  unfold startTimer
  split <;> rfl

theorem startTimer_maxErr (s : LoopState) :
    (startTimer s).maxErrorQueueSize = s.maxErrorQueueSize := by
  unfold startTimer
  split <;> rfl

theorem startTimer_flushC (s : LoopState) : (startTimer s).flushC = true := by
  unfold startTimer
  split
  next h => exact h
  next h => rfl

theorem sendPhaseEffects_pooledTxs (s0 : LoopState) (st : Bool) (d0 : TracerStats)
    (p0 : List Tx) (env : Env) :
    (sendPhaseEffects s0 st d0 p0 env).pooledTxs =
      p0 ++ (if st && (s0.sendTransactions s0.transactions env.txSendOk).1
             then s0.transactions else []) := rfl

theorem sendPhaseEffects_pooledErrs (s0 : LoopState) (st : Bool) (d0 : TracerStats)
    (p0 : List Tx) (env : Env) :
    (sendPhaseEffects s0 st d0 p0 env).pooledErrs =
      (if (s0.sendErrors (drainedErrors s0 env) env.errSendOk).1
       then drainedErrors s0 env else []) := rfl

theorem sendPhaseEffects_txCalls (s0 : LoopState) (st : Bool) (d0 : TracerStats)
    (p0 : List Tx) (env : Env) :
    (sendPhaseEffects s0 st d0 p0 env).txCalls =
      (if st then (s0.sendTransactions s0.transactions env.txSendOk).2.2.txCalls
       else []) := rfl

theorem sendPhaseEffects_errCalls (s0 : LoopState) (st : Bool) (d0 : TracerStats)
    (p0 : List Tx) (env : Env) :
    (sendPhaseEffects s0 st d0 p0 env).errCalls =
      (s0.sendErrors (drainedErrors s0 env) env.errSendOk).2.2.errCalls := rfl

theorem sendPhaseEffects_txSendAttempted (s0 : LoopState) (st : Bool) (d0 : TracerStats)
    (p0 : List Tx) (env : Env) :
    (sendPhaseEffects s0 st d0 p0 env).txSendAttempted = st := rfl

theorem sendPhase_txSendAttempted (s0 : LoopState) (st : Bool) (d0 : TracerStats)
    (p0 : List Tx) (env : Env) :
    (sendPhase s0 st d0 p0 env).2.txSendAttempted = st := by
  rcases sendPhase_snd_cases s0 st d0 p0 env with h | h <;> rw [h] <;> rfl

/-- C5: for a non-empty batch, `sendTransactions` (respectively
`sendErrors`) returns true exactly when the Transport call returns nil,
and makes exactly one Transport call with the full batch; on success it
adds exactly the batch length to `TransactionsSent` (`ErrorsSent`) and
records no transport failure; on failure it adds exactly 1 to
`Errors.SendTransactions` (`Errors.SendErrors`) and leaves the sent
counter unchanged, and the loop then retains the unsent transaction queue
and pools none of its records; an empty batch returns false with no
Transport call and a zero delta. -/
theorem claim_C5_sender_contract (s : LoopState) (batchT : List Tx) (batchE : List Err)
    (okT okE : Bool) (hT : batchT ≠ []) (hE : batchE ≠ []) :
    ((s.sendTransactions batchT okT).1 = true ↔ okT = true) ∧
    (s.sendTransactions batchT okT).2.2.txCalls = [(batchT, okT)] ∧
    (okT = true → (s.sendTransactions batchT okT).2.1.TransactionsSent = batchT.length ∧
       (s.sendTransactions batchT okT).2.1.Errors.SendTransactions = 0) ∧
    (okT = false → (s.sendTransactions batchT okT).2.1.Errors.SendTransactions = 1 ∧
       (s.sendTransactions batchT okT).2.1.TransactionsSent = 0) ∧
    ((s.sendErrors batchE okE).1 = true ↔ okE = true) ∧
    (s.sendErrors batchE okE).2.2.errCalls = [(batchE, okE)] ∧
    (okE = true → (s.sendErrors batchE okE).2.1.ErrorsSent = batchE.length ∧
       (s.sendErrors batchE okE).2.1.Errors.SendErrors = 0) ∧
    (okE = false → (s.sendErrors batchE okE).2.1.Errors.SendErrors = 1 ∧
       (s.sendErrors batchE okE).2.1.ErrorsSent = 0) ∧
    ((s.sendTransactions [] okT).1 = false ∧ (s.sendTransactions [] okT).2.2.txCalls = [] ∧
       (s.sendTransactions [] okT).2.1 = {} ∧
     (s.sendErrors [] okE).1 = false ∧ (s.sendErrors [] okE).2.2.errCalls = [] ∧
       (s.sendErrors [] okE).2.1 = {}) ∧
    (∀ st env, env.txSendOk = false →
       (loopStep st .flushTimer env).1.transactions = st.transactions ∧
       (loopStep st .flushTimer env).2.pooledTxs = []) := by
  have hTne : batchT.isEmpty = false := by
    cases batchT
    · exact absurd rfl hT
    · rfl
  have hEne : batchE.isEmpty = false := by
    cases batchE
    · exact absurd rfl hE
    · rfl
  refine ⟨by rw [sendTransactions_fst]; simp [hTne],
          by rw [sendTransactions_effects]; simp [hTne],
          ?_, ?_,
          by rw [sendErrors_fst]; simp [hEne],
          by rw [sendErrors_effects]; simp [hEne],
          ?_, ?_,
          ⟨by rw [sendTransactions_fst]; rfl, by rw [sendTransactions_effects]; rfl,
           by rw [sendTransactions_delta]; rfl,
           by rw [sendErrors_fst]; rfl, by rw [sendErrors_effects]; rfl,
           by rw [sendErrors_delta]; rfl⟩,
          ?_⟩
  · intro hok
    subst hok
    rw [sendTransactions_delta]
    simp [hTne]
  · intro hok
    subst hok
    rw [sendTransactions_delta]
    simp [hTne]
  · intro hok
    subst hok
    rw [sendErrors_delta]
    simp [hEne]
  · intro hok
    subst hok
    rw [sendErrors_delta]
    simp [hEne]
  · intro st env henv
    unfold loopStep
    dsimp only
    split
    · constructor
      · rcases sendPhase_fst_cases { st with flushC := false } true {} [] env with h | h | h <;>
          rw [h] <;>
          simp [startTimer_transactions, sendPhaseState_transactions, sendTransactions_fst,
                henv]
      · rcases sendPhase_snd_cases { st with flushC := false } true {} [] env with h | h <;>
          rw [h] <;>
          simp [sendPhaseEffects_pooledTxs, sendTransactions_fst, henv]
    · exact ⟨rfl, rfl⟩

theorem claim_C5_sender_contract_witness :
    (initState.sendTransactions [1] true).1 = true ∧
    (initState.sendTransactions [1] true).2.1.TransactionsSent = 1 ∧
    (initState.sendTransactions [1] true).2.2.txCalls = [([1], true)] ∧
    (initState.sendErrors [2] false).2.1.Errors.SendErrors = 1 ∧
    (initState.sendErrors [2] false).2.1.ErrorsSent = 0 := by
  have h := claim_C5_sender_contract initState [1] [2] true false (by decide) (by decide)
  exact ⟨h.1.mpr rfl, (h.2.2.1 rfl).1, h.2.1, (h.2.2.2.2.2.2.2.1 rfl).1,
         (h.2.2.2.2.2.2.2.1 rfl).2⟩

theorem setContextAttempts_first_failure (f : Nat → Bool) (l : List Nat)
    (h : l.all f = false) :
    ∃ pre r post, l = pre ++ r :: post ∧ pre.all f = true ∧ f r = false ∧
      setContextAttempts f l = pre ++ [r] := by
  induction l with
  | nil => simp at h
  | cons a t ih =>
    by_cases ha : f a = true
    · have ht : t.all f = false := by
        rw [List.all_cons, ha] at h
        simpa using h
      obtain ⟨pre, r, post, h1, h2, h3, h4⟩ := ih ht
      refine ⟨a :: pre, r, post, by rw [h1]; rfl, ?_, h3, ?_⟩
      · rw [List.all_cons, ha, h2]
        rfl
      · rw [setContextAttempts, if_pos ha, h4]
        rfl
    · refine ⟨[], a, t, rfl, rfl, by simpa using ha, ?_⟩
      rw [setContextAttempts, if_neg ha]
      rfl

/-- C8: with a configured context setter and a batch on which some
record's enrichment fails, enrichment stops at the first failing record —
the attempted records are exactly the successfully enriched prefix plus
that first failing record, and later records are not attempted —
`Errors.SetContext` is incremented exactly once for the batch, and the
Transport send is still attempted with the full batch; for
`sendTransactions` and `sendErrors` alike. -/
theorem claim_C8_enrichment_stops_send_proceeds (s : LoopState) (f : Nat → Bool)
    (batchT : List Tx) (batchE : List Err) (okT okE : Bool)
    (hcs : s.contextSetter = some f)
    (hT : batchT ≠ []) (hTf : batchT.all f = false)
    (hE : batchE ≠ []) (hEf : batchE.all f = false) :
    (s.sendTransactions batchT okT).2.1.Errors.SetContext = 1 ∧
    (∃ pre r post, batchT = pre ++ r :: post ∧ pre.all f = true ∧ f r = false ∧
       (s.sendTransactions batchT okT).2.2.ctxAttemptsTx = pre ++ [r]) ∧
    (s.sendTransactions batchT okT).2.2.txCalls = [(batchT, okT)] ∧
    (s.sendErrors batchE okE).2.1.Errors.SetContext = 1 ∧
    (∃ pre r post, batchE = pre ++ r :: post ∧ pre.all f = true ∧ f r = false ∧
       (s.sendErrors batchE okE).2.2.ctxAttemptsErr = pre ++ [r]) ∧
    (s.sendErrors batchE okE).2.2.errCalls = [(batchE, okE)] := by
  have hTne : batchT.isEmpty = false := by
    cases batchT
    · exact absurd rfl hT
    · rfl
  have hEne : batchE.isEmpty = false := by
    cases batchE
    · exact absurd rfl hE
    · rfl
  obtain ⟨preT, rT, postT, ht1, ht2, ht3, ht4⟩ := setContextAttempts_first_failure f batchT hTf
  obtain ⟨preE, rE, postE, he1, he2, he3, he4⟩ := setContextAttempts_first_failure f batchE hEf
  refine ⟨by rw [sendTransactions_delta]; simp [hTne, hcs, hTf],
          ⟨preT, rT, postT, ht1, ht2, ht3, ?_⟩,
          by rw [sendTransactions_effects]; simp [hTne],
          by rw [sendErrors_delta]; simp [hEne, hcs, hEf],
          ⟨preE, rE, postE, he1, he2, he3, ?_⟩,
          by rw [sendErrors_effects]; simp [hEne]⟩
  · rw [sendTransactions_effects]
    simp [hTne, hcs, ht4]
  · rw [sendErrors_effects]
    simp [hEne, hcs, he4]

theorem claim_C8_enrichment_stops_send_proceeds_witness :
    (({ initState with contextSetter := some (fun n => n == 0) } :
        LoopState).sendTransactions [0, 3, 4] true).2.1.Errors.SetContext = 1 ∧
    (∃ pre r post, ([0, 3, 4] : List Tx) = pre ++ r :: post ∧
       pre.all (fun n => n == 0) = true ∧ (fun n : Nat => n == 0) r = false ∧
       (({ initState with contextSetter := some (fun n => n == 0) } :
           LoopState).sendTransactions [0, 3, 4] true).2.2.ctxAttemptsTx = pre ++ [r]) ∧
    (({ initState with contextSetter := some (fun n => n == 0) } :
        LoopState).sendTransactions [0, 3, 4] true).2.2.txCalls = [([0, 3, 4], true)] ∧
    (({ initState with contextSetter := some (fun n => n == 0) } :
        LoopState).sendErrors [5] false).2.1.Errors.SetContext = 1 ∧
    (∃ pre r post, ([5] : List Err) = pre ++ r :: post ∧
       pre.all (fun n => n == 0) = true ∧ (fun n : Nat => n == 0) r = false ∧
       (({ initState with contextSetter := some (fun n => n == 0) } :
           LoopState).sendErrors [5] false).2.2.ctxAttemptsErr = pre ++ [r]) ∧
    (({ initState with contextSetter := some (fun n => n == 0) } :
        LoopState).sendErrors [5] false).2.2.errCalls = [([5], false)] :=
  claim_C8_enrichment_stops_send_proceeds
    { initState with contextSetter := some (fun n => n == 0) } (fun n => n == 0)
    [0, 3, 4] [5] true false rfl (by decide) (by decide) (by decide) (by decide)

theorem mem_procInvocations (ps l : List Nat) (r p : Nat) (hr : r ∈ l) (hp : p ∈ ps) :
    (r, p) ∈ procInvocations ps l := by
  induction l with
  | nil => cases hr
  | cons a t ih =>
    rw [procInvocations]
    rcases List.mem_cons.mp hr with h | h
    · subst h
      exact List.mem_append_left _ (List.mem_map.mpr ⟨p, hp, rfl⟩)
    · exact List.mem_append_right _ (ih h)

/-- C10: the facade `SetProcessor` with zero arguments delivers a nil
processor, so the loop stores none and subsequent sends invoke no
processor on any record; with a non-empty argument list it delivers the
composition `Processors p`, and subsequent sends invoke each component
processor once per record of the batch. -/
theorem claim_C10_set_processor (s : LoopState) (env : Env) (ps : List Nat)
    (txs : List Tx) (errs : List Err) (okT okE : Bool) (hps : ps ≠ []) :
    setProcessorArg [] = none ∧
    (loopStep s (.setProcessor (setProcessorArg [])) env).1.processor = none ∧
    ((loopStep s (.setProcessor (setProcessorArg [])) env).1.sendTransactions txs
        okT).2.2.procTxCalls = [] ∧
    ((loopStep s (.setProcessor (setProcessorArg [])) env).1.sendErrors errs
        okE).2.2.procErrCalls = [] ∧
    setProcessorArg ps = some (Processors ps) ∧
    (loopStep s (.setProcessor (setProcessorArg ps)) env).1.processor =
      some (Processors ps) ∧
    ((loopStep s (.setProcessor (setProcessorArg ps)) env).1.sendTransactions txs
        okT).2.2.procTxCalls = procInvocations ps txs ∧
    ((loopStep s (.setProcessor (setProcessorArg ps)) env).1.sendErrors errs
        okE).2.2.procErrCalls = procInvocations ps errs ∧
    (∀ r p, r ∈ txs → p ∈ ps → (r, p) ∈ procInvocations ps txs) ∧
    (∀ r p, r ∈ errs → p ∈ ps → (r, p) ∈ procInvocations ps errs) := by
  have hlen : 0 < ps.length := List.length_pos.mpr hps
  have harg : setProcessorArg ps = some (Processors ps) := by
    rw [setProcessorArg, if_pos hlen]
  refine ⟨rfl, rfl, ?_, ?_, harg, by rw [loopStep]; exact harg, ?_, ?_,
          fun r p hr hp => mem_procInvocations ps txs r p hr hp,
          fun r p hr hp => mem_procInvocations ps errs r p hr hp⟩
  · rw [sendTransactions_effects]
    cases htx : txs.isEmpty
    · simp [htx]
      rfl
    · simp [htx]
  · rw [sendErrors_effects]
    cases herr : errs.isEmpty
    · simp [herr]
      rfl
    · simp [herr]
  · rw [sendTransactions_effects]
    cases htx : txs.isEmpty
    · simp only [htx, if_false, Bool.false_eq_true]
      show (match (loopStep s (.setProcessor (setProcessorArg ps)) env).1.processor with
            | none => []
            | some ps => procInvocations ps txs) = procInvocations ps txs
      rw [loopStep]
      dsimp only
      rw [harg]
      rfl
    · have : txs = [] := by
        cases txs
        · rfl
        · cases htx
      subst this
      simp [procInvocations]
  · rw [sendErrors_effects]
    cases herr : errs.isEmpty
    · simp only [herr, if_false, Bool.false_eq_true]
      show (match (loopStep s (.setProcessor (setProcessorArg ps)) env).1.processor with
            | none => []
            | some ps => procInvocations ps errs) = procInvocations ps errs
      rw [loopStep]
      dsimp only
      rw [harg]
      rfl
    · have : errs = [] := by
        cases errs
        · rfl
        · cases herr
      subst this
      simp [procInvocations]

theorem claim_C10_set_processor_witness :
    setProcessorArg [] = none ∧
    (loopStep initState (.setProcessor (setProcessorArg [])) {}).1.processor = none ∧
    ((loopStep initState (.setProcessor (setProcessorArg [])) {}).1.sendTransactions [7]
        true).2.2.procTxCalls = [] ∧
    ((loopStep initState (.setProcessor (setProcessorArg [])) {}).1.sendErrors [8]
        true).2.2.procErrCalls = [] ∧
    setProcessorArg [1, 2] = some (Processors [1, 2]) ∧
    (loopStep initState (.setProcessor (setProcessorArg [1, 2])) {}).1.processor =
      some (Processors [1, 2]) ∧
    ((loopStep initState (.setProcessor (setProcessorArg [1, 2])) {}).1.sendTransactions [7]
        true).2.2.procTxCalls = procInvocations [1, 2] [7] ∧
    ((loopStep initState (.setProcessor (setProcessorArg [1, 2])) {}).1.sendErrors [8]
        true).2.2.procErrCalls = procInvocations [1, 2] [8] ∧
    (∀ r p, r ∈ ([7] : List Tx) → p ∈ ([1, 2] : List Nat) →
       (r, p) ∈ procInvocations [1, 2] [7]) ∧
    (∀ r p, r ∈ ([8] : List Err) → p ∈ ([1, 2] : List Nat) →
       (r, p) ∈ procInvocations [1, 2] [8]) :=
  claim_C10_set_processor initState {} [1, 2] [7] [8] true true (by decide)

theorem sendPhaseEffects_pooled_ok (s0 : LoopState) (st : Bool) (d0 : TracerStats)
    (p0 : List Tx) (env : Env) :
    (sendPhaseEffects s0 st d0 p0 env).pooledTxs =
      p0 ++ okBatches (sendPhaseEffects s0 st d0 p0 env).txCalls ∧
    (sendPhaseEffects s0 st d0 p0 env).pooledErrs =
      okBatches (sendPhaseEffects s0 st d0 p0 env).errCalls := by
  constructor
  · rw [sendPhaseEffects_pooledTxs, sendPhaseEffects_txCalls]
    cases st
    · simp [okBatches]
    · rw [sendTransactions_fst, sendTransactions_effects]
      cases hemp : s0.transactions.isEmpty
      · cases hok : env.txSendOk <;> simp [okBatches, hemp, hok]
      · have : s0.transactions = [] := by
          cases h : s0.transactions
          · rfl
          · rw [h] at hemp
            cases hemp
        simp [okBatches, hemp, this]
  · rw [sendPhaseEffects_pooledErrs, sendPhaseEffects_errCalls, sendErrors_fst,
        sendErrors_effects]
    cases hemp : (drainedErrors s0 env).isEmpty
    · cases hok : env.errSendOk <;> simp [okBatches, hemp, hok]
    · have : drainedErrors s0 env = [] := by
        cases h : drainedErrors s0 env
        · rfl
        · rw [h] at hemp
          cases hemp
      simp [okBatches, hemp, this]

theorem sendPhase_pooled (s0 : LoopState) (st : Bool) (d0 : TracerStats)
    (p0 : List Tx) (env : Env) :
    (sendPhase s0 st d0 p0 env).2.pooledTxs =
      p0 ++ okBatches (sendPhase s0 st d0 p0 env).2.txCalls ∧
    (sendPhase s0 st d0 p0 env).2.pooledErrs =
      okBatches (sendPhase s0 st d0 p0 env).2.errCalls := by
  rcases sendPhase_snd_cases s0 st d0 p0 env with h | h <;> rw [h]
  · exact sendPhaseEffects_pooled_ok s0 st d0 p0 env
  · exact sendPhaseEffects_pooled_ok s0 st d0 p0 env

theorem sendPhase_errCalls (s0 : LoopState) (st : Bool) (d0 : TracerStats)
    (p0 : List Tx) (env : Env) :
    (sendPhase s0 st d0 p0 env).2.errCalls =
      (if (drainedErrors s0 env).isEmpty then []
       else [(drainedErrors s0 env, env.errSendOk)]) := by
  have key : (sendPhaseEffects s0 st d0 p0 env).errCalls =
      (if (drainedErrors s0 env).isEmpty then []
       else [(drainedErrors s0 env, env.errSendOk)]) := by
    rw [sendPhaseEffects_errCalls, sendErrors_effects]
    cases hemp : (drainedErrors s0 env).isEmpty <;> cases hok : env.errSendOk <;>
      simp [hemp, hok]
  rcases sendPhase_snd_cases s0 st d0 p0 env with h | h <;> rw [h]
  · exact key
  · exact key

theorem claim_C6_record_pooling_counterexample :
    (loopStep (loopStep (loopStep initState (.setMaxTransactionQueueSize 1) {}).1
        (.txArrival 0) {}).1 (.txArrival 1) {}).2.pooledTxs = [0] ∧
    (loopStep (loopStep (loopStep initState (.setMaxTransactionQueueSize 1) {}).1
        (.txArrival 0) {}).1 (.txArrival 1) {}).2.txCalls = [] ∧
    (loopStep (loopStep (loopStep initState (.setMaxTransactionQueueSize 1) {}).1
        (.txArrival 0) {}).1 (.txArrival 1) {}).2.errCalls = [] := by
  refine ⟨?_, ?_, ?_⟩ <;> rfl

/-- C6 (amended): in every loop iteration, the errors reset and returned
to the pool are exactly the batch of a successful `sendErrors` Transport
call, and the transactions reset and returned to the pool are exactly the
transactions evicted by the drop-oldest append policy followed by the
batch of a successful `sendTransactions` Transport call; in particular a
transaction can be pooled without ever having been sent, but only by
eviction. -/
theorem claim_C6_pool_return_amended (s : LoopState) (e : Event) (env : Env) :
    (loopStep s e env).2.pooledTxs =
      evictedTxs s e env ++ okBatches (loopStep s e env).2.txCalls ∧
    (loopStep s e env).2.pooledErrs = okBatches (loopStep s e env).2.errCalls := by
  cases e with
  | setFlushInterval d => exact ⟨rfl, rfl⟩
  | setMaxTransactionQueueSize n =>
    unfold loopStep evictedTxs
    dsimp only
    split
    · exact ⟨rfl, rfl⟩
    · exact sendPhase_pooled _ _ _ _ _
  | setMaxErrorQueueSize n =>
    unfold loopStep evictedTxs
    dsimp only
    split
    · exact ⟨rfl, rfl⟩
    · exact ⟨rfl, rfl⟩
  | setPreContext n => exact ⟨rfl, rfl⟩
  | setPostContext n => exact ⟨rfl, rfl⟩
  | setContextSetter f => exact ⟨rfl, rfl⟩
  | setLogger b => exact ⟨rfl, rfl⟩
  | setProcessor p => exact ⟨rfl, rfl⟩
  | errorArrival err =>
    unfold loopStep evictedTxs
    dsimp only
    split
    · exact sendPhase_pooled _ _ _ _ _
    · exact ⟨rfl, rfl⟩
  | txArrival tx =>
    unfold loopStep evictedTxs
    dsimp only
    split
    · exact ⟨(List.append_nil _).symm, rfl⟩
    · split
      · exact ⟨(List.append_nil _).symm, rfl⟩
      · exact sendPhase_pooled _ _ _ _ _
  | flushTimer =>
    unfold loopStep evictedTxs
    dsimp only
    split
    · exact sendPhase_pooled _ _ _ _ _
    · exact ⟨rfl, rfl⟩
  | forceFlush =>
    unfold loopStep evictedTxs
    dsimp only
    split_ifs with h
    · exact sendPhase_pooled _ _ _ _ _
    · exact ⟨rfl, rfl⟩

/-- C9: every loop iteration that reaches the send phase — whatever the
triggering event — first drains the errors channel into the error queue
up to the remaining headroom `maxErrorQueueSize - len(errors)` and then
attempts to send the entire resulting error queue, making exactly one
`SendErrors` Transport call with that full batch when it is non-empty
(and none when it is empty, the empty batch short-circuiting). -/
theorem claim_C9_send_phase_flushes_errors (s : LoopState) (e : Event) (env : Env)
    (h : reachesSendPhase s e) :
    (loopStep s e env).2.errCalls =
      (if (errorBatch s e env).isEmpty then []
       else [(errorBatch s e env, env.errSendOk)]) := by
  cases e with
  | setFlushInterval d => exact absurd h (by simp [reachesSendPhase])
  | setMaxTransactionQueueSize n =>
    simp only [reachesSendPhase] at h
    simp only [loopStep]
    rw [if_neg h]
    simp only [sendPhase_errCalls]
    rfl
  | setMaxErrorQueueSize n => exact absurd h (by simp [reachesSendPhase])
  | setPreContext n => exact absurd h (by simp [reachesSendPhase])
  | setPostContext n => exact absurd h (by simp [reachesSendPhase])
  | setContextSetter f => exact absurd h (by simp [reachesSendPhase])
  | setLogger b => exact absurd h (by simp [reachesSendPhase])
  | setProcessor p => exact absurd h (by simp [reachesSendPhase])
  | errorArrival err =>
    simp only [reachesSendPhase] at h
    simp only [loopStep]
    rw [if_pos h]
    simp only [sendPhase_errCalls]
    rfl
  | txArrival tx =>
    simp only [reachesSendPhase] at h
    simp only [loopStep]
    rw [if_neg h.1, if_neg h.2]
    simp only [sendPhase_errCalls]
    rfl
  | flushTimer =>
    simp only [reachesSendPhase] at h
    simp only [loopStep]
    rw [if_pos h]
    simp only [sendPhase_errCalls]
    rfl
  | forceFlush =>
    simp only [reachesSendPhase] at h
    simp only [loopStep]
    rw [if_pos h]
    simp only [sendPhase_errCalls]
    rfl

theorem claim_C9_send_phase_flushes_errors_witness :
    (loopStep { initState with flushC := true, errors := [4], maxErrorQueueSize := 3 }
        .flushTimer { errChannel := [7, 8, 9] }).2.errCalls = [([4, 7, 8], false)] := by
  rw [claim_C9_send_phase_flushes_errors
        { initState with flushC := true, errors := [4], maxErrorQueueSize := 3 }
        .flushTimer { errChannel := [7, 8, 9] } (by rfl)]
  decide

theorem drainedErrors_length_le (s0 : LoopState) (env : Env)
    (h : 0 < s0.maxErrorQueueSize → (s0.errors.length : Int) ≤ s0.maxErrorQueueSize)
    (hm : 0 < s0.maxErrorQueueSize) :
    ((drainedErrors s0 env).length : Int) ≤ s0.maxErrorQueueSize := by
  unfold drainedErrors
  dsimp only
  rw [List.length_append]
  split_ifs with hr
  · have hlen := List.length_take_le
      (s0.maxErrorQueueSize - (s0.errors.length : Int)).toNat env.errChannel
    push_cast
    omega
  · have := h hm
    simp only [List.length_nil]
    omega

theorem ErrInv_startTimer (s : LoopState) (h : ErrInv s) : ErrInv (startTimer s) := by
  unfold ErrInv at *
  rw [startTimer_errors, startTimer_maxErr, startTimer_errorsCEnabled]
  exact h

theorem sendPhaseState_ErrInv (s0 : LoopState) (st : Bool) (d0 : TracerStats) (env : Env)
    (h : 0 < s0.maxErrorQueueSize → (s0.errors.length : Int) ≤ s0.maxErrorQueueSize) :
    ErrInv (sendPhaseState s0 st d0 env) := by
  constructor
  · rw [sendPhaseState_maxErr, sendPhaseState_errors]
    intro hm
    split_ifs with h1
    · simp only [List.length_nil, Nat.cast_zero]
      omega
    · exact drainedErrors_length_le s0 env h hm
  · rw [sendPhaseState_maxErr, sendPhaseState_errorsCEnabled, sendPhaseState_errors]
    split_ifs with h1 h2
    · intro _ hm
      simp only [List.length_nil, Nat.cast_zero]
      omega
    · intro hfalse
      exact absurd hfalse (by simp)
    · intro _ hm
      have := drainedErrors_length_le s0 env h hm
      omega

theorem sendPhase_ErrInv (s0 : LoopState) (st : Bool) (d0 : TracerStats)
    (p0 : List Tx) (env : Env)
    (h : 0 < s0.maxErrorQueueSize → (s0.errors.length : Int) ≤ s0.maxErrorQueueSize) :
    ErrInv (sendPhase s0 st d0 p0 env).1 := by
  rcases sendPhase_fst_cases s0 st d0 p0 env with hc | hc | hc <;> rw [hc]
  · exact ErrInv_startTimer _ (sendPhaseState_ErrInv s0 st d0 env h)
  · exact ⟨(sendPhaseState_ErrInv s0 st d0 env h).1, (sendPhaseState_ErrInv s0 st d0 env h).2⟩
  · exact sendPhaseState_ErrInv s0 st d0 env h

theorem ErrInv_step (s : LoopState) (e : Event) (env : Env) (hI : ErrInv s)
    (hg : GoodErrEvent s e) : ErrInv (loopStep s e env).1 := by
  obtain ⟨h1, h2⟩ := hI
  cases e with
  | setFlushInterval d => exact ⟨h1, h2⟩
  | setMaxTransactionQueueSize n =>
    simp only [loopStep]
    split
    · exact ⟨h1, h2⟩
    · exact sendPhase_ErrInv _ _ _ _ _ h1
  | setMaxErrorQueueSize n =>
    have hgn := hg n rfl
    simp only [loopStep]
    split
    next hcond =>
      constructor
      · dsimp only
        intro hm
        rcases hgn with hn | hn <;> omega
      · dsimp only
        intro _ hm
        rcases hgn with hn | hn <;> omega
    next hcond => exact absurd hgn hcond
  | setPreContext n => exact ⟨h1, h2⟩
  | setPostContext n => exact ⟨h1, h2⟩
  | setContextSetter f => exact ⟨h1, h2⟩
  | setLogger b => exact ⟨h1, h2⟩
  | setProcessor p => exact ⟨h1, h2⟩
  | errorArrival err =>
    simp only [loopStep]
    split
    next hen =>
      apply sendPhase_ErrInv
      intro hm
      have := h2 hen hm
      simp only [List.length_append, List.length_cons, List.length_nil]
      push_cast
      omega
    next hen => exact ⟨h1, h2⟩
  | txArrival tx =>
    simp only [loopStep]
    split
    · exact ⟨h1, h2⟩
    · split
      · exact ErrInv_startTimer _ ⟨h1, h2⟩
      · exact sendPhase_ErrInv _ _ _ _ _ h1
  | flushTimer =>
    simp only [loopStep]
    split
    · exact sendPhase_ErrInv _ _ _ _ _ h1
    · exact ⟨h1, h2⟩
  | forceFlush =>
    simp only [loopStep]
    split
    · exact sendPhase_ErrInv _ _ _ _ _ h1
    · exact ⟨h1, h2⟩

theorem claim_C2_error_queue_bound_counterexample :
    0 < (loopStep (loopStep (loopStep (loopStep initState
          (.setMaxErrorQueueSize 10) {}).1 (.errorArrival 1) {}).1
          (.errorArrival 2) {}).1 (.setMaxErrorQueueSize 1) {}).1.maxErrorQueueSize ∧
    ¬(((loopStep (loopStep (loopStep (loopStep initState
          (.setMaxErrorQueueSize 10) {}).1 (.errorArrival 1) {}).1
          (.errorArrival 2) {}).1 (.setMaxErrorQueueSize 1) {}).1.errors.length : Int) ≤
        (loopStep (loopStep (loopStep (loopStep initState
          (.setMaxErrorQueueSize 10) {}).1 (.errorArrival 1) {}).1
          (.errorArrival 2) {}).1 (.setMaxErrorQueueSize 1) {}).1.maxErrorQueueSize) := by
  refine ⟨by decide, by decide⟩

/-- C2 (amended): in every execution in which each `SetMaxErrorQueueSize`
reconfiguration sets either a non-positive cap or a cap strictly above
the current error-queue length, every reachable loop state with a
positive `maxErrorQueueSize` satisfies `len(errors) ≤ maxErrorQueueSize`.
(As stated the claim fails: a reconfiguration lowering the positive cap
to at most the current queue length leaves the longer queue in place.) -/
theorem claim_C2_error_queue_bound_amended (s : LoopState) (hs : ReachableG s) :
    0 < s.maxErrorQueueSize → (s.errors.length : Int) ≤ s.maxErrorQueueSize := by
  have hI : ErrInv s := by
    induction hs with
    | init => exact ⟨by decide, by decide⟩
    | step e env hr hg ih => exact ErrInv_step _ e env ih hg
  exact hI.1

theorem claim_C2_error_queue_bound_amended_witness :
    (((loopStep (loopStep initState (.setMaxErrorQueueSize 5) {}).1
        (.errorArrival 3) {}).1.errors.length : Int) ≤
      (loopStep (loopStep initState (.setMaxErrorQueueSize 5) {}).1
        (.errorArrival 3) {}).1.maxErrorQueueSize) :=
  claim_C2_error_queue_bound_amended _
    (ReachableG.step (.errorArrival 3) {}
      (ReachableG.step (.setMaxErrorQueueSize 5) {} ReachableG.init
        (fun n h => by cases h; right; decide))
      (fun n h => nomatch h))
    (by decide)

/-- C7: code bug.  With `maxErrorQueueSize = 0` — documented as an
unlimited queue — an iteration reaching the send phase with an empty
error queue disables the error-ingress select case: the empty-batch
`sendErrors` returns false and `len(errors) == maxErrorQueueSize`
(0 == 0) sets `errorsC = nil` (tracer.go:455-456), suspending ingress
although the cap is non-positive.  A negative cap does not exhibit the
bug. -/
theorem claim_C7_zero_cap_suspends_ingress_bug :
    (loopStep (loopStep initState (.setMaxErrorQueueSize 1000) {}).1
        (.setMaxErrorQueueSize 0) {}).1.maxErrorQueueSize = 0 ∧
    (loopStep (loopStep initState (.setMaxErrorQueueSize 1000) {}).1
        (.setMaxErrorQueueSize 0) {}).1.errorsCEnabled = true ∧
    (loopStep (loopStep initState (.setMaxErrorQueueSize 1000) {}).1
        (.setMaxErrorQueueSize 0) {}).1.errors = [] ∧
    (loopStep (loopStep (loopStep initState (.setMaxErrorQueueSize 1000) {}).1
        (.setMaxErrorQueueSize 0) {}).1 .forceFlush {}).1.errorsCEnabled = false ∧
    (loopStep (loopStep (loopStep initState (.setMaxErrorQueueSize 1000) {}).1
        (.setMaxErrorQueueSize (-1)) {}).1 .forceFlush {}).1.errorsCEnabled = true := by
  refine ⟨?_, ?_, ?_, ?_, ?_⟩ <;> decide

theorem sendPhaseEffects_flushedSignaled (s0 : LoopState) (st : Bool) (d0 : TracerStats)
    (p0 : List Tx) (env : Env) :
    (sendPhaseEffects s0 st d0 p0 env).flushedSignaled = false := rfl

theorem sendPhase_txCalls (s0 : LoopState) (st : Bool) (d0 : TracerStats)
    (p0 : List Tx) (env : Env) :
    (sendPhase s0 st d0 p0 env).2.txCalls =
      (if st then
         (if s0.transactions.isEmpty then [] else [(s0.transactions, env.txSendOk)])
       else []) := by
  have key : (sendPhaseEffects s0 st d0 p0 env).txCalls =
      (if st then
         (if s0.transactions.isEmpty then [] else [(s0.transactions, env.txSendOk)])
       else []) := by
    rw [sendPhaseEffects_txCalls, sendTransactions_effects]
    cases st <;> cases hemp : s0.transactions.isEmpty <;> simp [hemp]
  rcases sendPhase_snd_cases s0 st d0 p0 env with h | h <;> rw [h]
  · exact key
  · exact key

theorem isZero_send_failures (d : TracerStats) (h : d.isZero = true) :
    d.Errors.SendTransactions = 0 ∧ d.Errors.SendErrors = 0 := by
  unfold TracerStats.isZero at h
  simp only [Bool.and_eq_true, beq_iff_eq] at h
  refine ⟨?_, ?_⟩ <;> omega

theorem sendPhase_signal_conditions (s0 : LoopState) (st : Bool) (d0 : TracerStats)
    (p0 : List Tx) (env : Env)
    (h : (sendPhase s0 st d0 p0 env).2.flushedSignaled = true) :
    st = true ∧ s0.flushed = true ∧
    (sendPhaseDelta s0 st d0 env).Errors.SendTransactions = 0 ∧
    (sendPhaseDelta s0 st d0 env).Errors.SendErrors = 0 ∧
    (sendPhase s0 st d0 p0 env).1.forceFlushEnabled = true ∧
    (sendPhase s0 st d0 p0 env).1.flushed = false := by
  revert h
  unfold sendPhase
  dsimp only
  split
  next hfail =>
    intro h
    rw [sendPhaseEffects_flushedSignaled] at h
    exact Bool.noConfusion h
  next hfail =>
    have hzero : (sendPhaseDelta s0 st d0 env).Errors.SendTransactions = 0 ∧
        (sendPhaseDelta s0 st d0 env).Errors.SendErrors = 0 := by
      by_cases hz : (sendPhaseDelta s0 st d0 env).isZero = true
      · exact isZero_send_failures _ hz
      · have hz' : (sendPhaseDelta s0 st d0 env).isZero = false := by
          cases hzc : (sendPhaseDelta s0 st d0 env).isZero
          · rfl
          · exact absurd hzc hz
        rw [hz'] at hfail
        simp at hfail
        exact hfail
    split
    next hsig =>
      intro _
      simp only [Bool.and_eq_true] at hsig
      obtain ⟨hst, h3⟩ := hsig
      rw [sendPhaseState_flushed] at h3
      exact ⟨hst, h3, hzero.1, hzero.2, rfl, rfl⟩
    next hsig =>
      intro h
      rw [sendPhaseEffects_flushedSignaled] at h
      exact Bool.noConfusion h

theorem sendPhase_flushed_of_not_signaled (s0 : LoopState) (st : Bool) (d0 : TracerStats)
    (p0 : List Tx) (env : Env)
    (h : (sendPhase s0 st d0 p0 env).2.flushedSignaled = false) :
    (sendPhase s0 st d0 p0 env).1.flushed = s0.flushed := by
  revert h
  unfold sendPhase
  dsimp only
  split
  · intro _
    rw [startTimer_flushed, sendPhaseState_flushed]
  · split
    · intro h
      exact Bool.noConfusion h
    · intro _
      rw [sendPhaseState_flushed]

theorem sendPhase_fail_branch (s0 : LoopState) (st : Bool) (d0 : TracerStats)
    (p0 : List Tx) (env : Env)
    (h : (sendPhaseDelta s0 st d0 env).Errors.SendTransactions ≠ 0 ∨
         (sendPhaseDelta s0 st d0 env).Errors.SendErrors ≠ 0) :
    (sendPhase s0 st d0 p0 env).1.flushC = true ∧
    (sendPhase s0 st d0 p0 env).1.flushed = s0.flushed ∧
    (sendPhase s0 st d0 p0 env).2.flushedSignaled = false := by
  have hz : (sendPhaseDelta s0 st d0 env).isZero = false := by
    cases hzc : (sendPhaseDelta s0 st d0 env).isZero
    · rfl
    · rcases h with h | h <;> exact absurd (isZero_send_failures _ hzc) (by tauto)
  have hcond : (!(sendPhaseDelta s0 st d0 env).isZero &&
      ((sendPhaseDelta s0 st d0 env).Errors.SendTransactions != 0 ||
       (sendPhaseDelta s0 st d0 env).Errors.SendErrors != 0)) = true := by
    rw [hz]
    simpa using h
  unfold sendPhase
  dsimp only
  rw [if_pos hcond]
  exact ⟨startTimer_flushC _, by rw [startTimer_flushed, sendPhaseState_flushed], rfl⟩

theorem loopStep_signal_conditions (s : LoopState) (e : Event) (env : Env)
    (h : (loopStep s e env).2.flushedSignaled = true) :
    (loopStep s e env).2.txSendAttempted = true ∧
    (loopStep s e env).2.statsDelta.Errors.SendTransactions = 0 ∧
    (loopStep s e env).2.statsDelta.Errors.SendErrors = 0 ∧
    (loopStep s e env).1.forceFlushEnabled = true ∧
    (loopStep s e env).1.flushed = false := by
  cases e with
  | setFlushInterval d => exact Bool.noConfusion h
  | setMaxTransactionQueueSize n =>
    revert h
    simp only [loopStep]
    split
    · intro h
      exact Bool.noConfusion h
    · intro h
      have hc := sendPhase_signal_conditions _ _ _ _ _ h
      exact Bool.noConfusion hc.1
  | setMaxErrorQueueSize n =>
    revert h
    simp only [loopStep]
    split
    · intro h
      exact Bool.noConfusion h
    · intro h
      exact Bool.noConfusion h
  | setPreContext n => exact Bool.noConfusion h
  | setPostContext n => exact Bool.noConfusion h
  | setContextSetter f => exact Bool.noConfusion h
  | setLogger b => exact Bool.noConfusion h
  | setProcessor p => exact Bool.noConfusion h
  | errorArrival err =>
    revert h
    simp only [loopStep]
    split
    · intro h
      have hc := sendPhase_signal_conditions _ _ _ _ _ h
      exact Bool.noConfusion hc.1
    · intro h
      exact Bool.noConfusion h
  | txArrival tx =>
    revert h
    simp only [loopStep]
    split
    · intro h
      exact Bool.noConfusion h
    · split
      · intro h
        exact Bool.noConfusion h
      · intro h
        have hc := sendPhase_signal_conditions _ _ _ _ _ h
        refine ⟨?_, ?_, ?_, hc.2.2.2.2.1, hc.2.2.2.2.2⟩
        · rw [sendPhase_txSendAttempted]
        · rw [sendPhase_statsDelta]
          exact hc.2.2.1
        · rw [sendPhase_statsDelta]
          exact hc.2.2.2.1
  | flushTimer =>
    revert h
    simp only [loopStep]
    split
    · intro h
      have hc := sendPhase_signal_conditions _ _ _ _ _ h
      refine ⟨?_, ?_, ?_, hc.2.2.2.2.1, hc.2.2.2.2.2⟩
      · rw [sendPhase_txSendAttempted]
      · rw [sendPhase_statsDelta]
        exact hc.2.2.1
      · rw [sendPhase_statsDelta]
        exact hc.2.2.2.1
    · intro h
      exact Bool.noConfusion h
  | forceFlush =>
    revert h
    simp only [loopStep]
    split
    · intro h
      have hc := sendPhase_signal_conditions _ _ _ _ _ h
      refine ⟨?_, ?_, ?_, hc.2.2.2.2.1, hc.2.2.2.2.2⟩
      · rw [sendPhase_txSendAttempted]
      · rw [sendPhase_statsDelta]
        exact hc.2.2.1
      · rw [sendPhase_statsDelta]
        exact hc.2.2.2.1
    · intro h
      exact Bool.noConfusion h

theorem FlushInv_sendPhase (s0 : LoopState) (st : Bool) (d0 : TracerStats)
    (p0 : List Tx) (env : Env) (h : FlushInv s0) :
    FlushInv (sendPhase s0 st d0 p0 env).1 := by
  unfold sendPhase
  dsimp only
  split
  · unfold FlushInv
    rw [startTimer_flushed, startTimer_forceFlushEnabled, sendPhaseState_flushed,
        sendPhaseState_forceFlushEnabled]
    exact h
  · split
    · intro hfl
      exact Bool.noConfusion hfl
    · unfold FlushInv
      rw [sendPhaseState_flushed, sendPhaseState_forceFlushEnabled]
      exact h

theorem FlushInv_step (s : LoopState) (e : Event) (env : Env) (hI : FlushInv s) :
    FlushInv (loopStep s e env).1 := by
  cases e with
  | setFlushInterval d => exact hI
  | setMaxTransactionQueueSize n =>
    simp only [loopStep]
    split
    · exact hI
    · exact FlushInv_sendPhase _ _ _ _ _ hI
  | setMaxErrorQueueSize n =>
    simp only [loopStep]
    split
    · exact hI
    · exact hI
  | setPreContext n => exact hI
  | setPostContext n => exact hI
  | setContextSetter f => exact hI
  | setLogger b => exact hI
  | setProcessor p => exact hI
  | errorArrival err =>
    simp only [loopStep]
    split
    · exact FlushInv_sendPhase _ _ _ _ _ hI
    · exact hI
  | txArrival tx =>
    simp only [loopStep]
    split
    · exact hI
    · split
      · unfold FlushInv
        rw [startTimer_flushed, startTimer_forceFlushEnabled]
        exact hI
      · exact FlushInv_sendPhase _ _ _ _ _ hI
  | flushTimer =>
    simp only [loopStep]
    split
    · exact FlushInv_sendPhase _ _ _ _ _ hI
    · exact hI
  | forceFlush =>
    simp only [loopStep]
    split
    · exact FlushInv_sendPhase _ _ _ _ _ (fun _ => rfl)
    · exact hI

theorem FlushInv_reachable (s : LoopState) (h : ReachableAll s) : FlushInv s := by
  induction h with
  | init => exact fun hfl => Bool.noConfusion hfl
  | step e env hr ih => exact FlushInv_step _ e env ih

theorem loopStep_flushed_pending_persists (s : LoopState) (e : Event) (env : Env)
    (hfl : s.flushed = true)
    (hns : (loopStep s e env).2.flushedSignaled = false) :
    (loopStep s e env).1.flushed = true := by
  cases e with
  | setFlushInterval d => exact hfl
  | setMaxTransactionQueueSize n =>
    revert hns
    simp only [loopStep]
    split
    · intro _
      exact hfl
    · intro hns
      rw [sendPhase_flushed_of_not_signaled _ _ _ _ _ hns]
      exact hfl
  | setMaxErrorQueueSize n =>
    revert hns
    simp only [loopStep]
    split
    · intro _
      exact hfl
    · intro _
      exact hfl
  | setPreContext n => exact hfl
  | setPostContext n => exact hfl
  | setContextSetter f => exact hfl
  | setLogger b => exact hfl
  | setProcessor p => exact hfl
  | errorArrival err =>
    revert hns
    simp only [loopStep]
    split
    · intro hns
      rw [sendPhase_flushed_of_not_signaled _ _ _ _ _ hns]
      exact hfl
    · intro _
      exact hfl
  | txArrival tx =>
    revert hns
    simp only [loopStep]
    split
    · intro _
      exact hfl
    · split
      · intro _
        rw [startTimer_flushed]
        exact hfl
      · intro hns
        rw [sendPhase_flushed_of_not_signaled _ _ _ _ _ hns]
        exact hfl
  | flushTimer =>
    revert hns
    simp only [loopStep]
    split
    · intro hns
      rw [sendPhase_flushed_of_not_signaled _ _ _ _ _ hns]
      exact hfl
    · intro _
      exact hfl
  | forceFlush =>
    revert hns
    simp only [loopStep]
    split
    · intro hns
      rw [sendPhase_flushed_of_not_signaled _ _ _ _ _ hns]
    · intro _
      exact hfl

theorem claim_C4_forced_flush_counterexample :
    (loopStep initState .forceFlush {}).2.flushedSignaled = true ∧
    (loopStep initState .forceFlush {}).2.txCalls = [] ∧
    (initState.sendTransactions initState.transactions false).1 = false := by
  refine ⟨?_, ?_, ?_⟩ <;> decide

/-- C4 (amended): on accepting a Flush request the loop drains the
buffered transactions channel into its queue (drop-oldest) and attempts
to send both queues (one Transport call per non-empty batch); the
completion channel is signaled only in an iteration that ran the
transaction-send branch and recorded no send-transaction or send-error
failure (an empty batch returns false without a Transport call yet also
completes the flush — this is where the claim as stated fails); while
the completion signal is pending the force-flush select case is
disabled in every reachable state; on a recorded send failure the retry
timer is armed, nothing is signaled, and the pending signal persists
until some iteration signals it. -/
theorem claim_C4_forced_flush_amended :
    (∀ s env, s.forceFlushEnabled = true →
       (loopStep s .forceFlush env).2.txSendAttempted = true ∧
       (loopStep s .forceFlush env).2.txCalls =
         (if (drainTxChannel s.maxTransactionQueueSize s.transactions env.txChannel).1.isEmpty
          then []
          else
            [((drainTxChannel s.maxTransactionQueueSize s.transactions env.txChannel).1,
              env.txSendOk)]) ∧
       (loopStep s .forceFlush env).2.errCalls =
         (if (errorBatch s .forceFlush env).isEmpty then []
          else [(errorBatch s .forceFlush env, env.errSendOk)])) ∧
    (∀ s e env, (loopStep s e env).2.flushedSignaled = true →
       (loopStep s e env).2.txSendAttempted = true ∧
       (loopStep s e env).2.statsDelta.Errors.SendTransactions = 0 ∧
       (loopStep s e env).2.statsDelta.Errors.SendErrors = 0 ∧
       (loopStep s e env).1.forceFlushEnabled = true ∧
       (loopStep s e env).1.flushed = false) ∧
    (∀ s, ReachableAll s → s.flushed = true → s.forceFlushEnabled = false) ∧
    (∀ s env, s.forceFlushEnabled = true →
       ((loopStep s .forceFlush env).2.statsDelta.Errors.SendTransactions ≠ 0 ∨
        (loopStep s .forceFlush env).2.statsDelta.Errors.SendErrors ≠ 0) →
       (loopStep s .forceFlush env).1.flushC = true ∧
       (loopStep s .forceFlush env).1.flushed = true ∧
       (loopStep s .forceFlush env).2.flushedSignaled = false) ∧
    (∀ s e env, s.flushed = true → (loopStep s e env).2.flushedSignaled = false →
       (loopStep s e env).1.flushed = true) := by
  refine ⟨?_, ?_, ?_, ?_, ?_⟩
  · intro s env hf
    unfold loopStep
    dsimp only
    rw [if_pos hf]
    refine ⟨?_, ?_, ?_⟩
    · rw [sendPhase_txSendAttempted]
    · rw [sendPhase_txCalls]
      rfl
    · rw [sendPhase_errCalls]
      rfl
  · exact fun s e env h => loopStep_signal_conditions s e env h
  · exact fun s hr => FlushInv_reachable s hr
  · intro s env hf
    unfold loopStep
    dsimp only
    rw [if_pos hf]
    intro hfail
    rw [sendPhase_statsDelta] at hfail
    have hc := sendPhase_fail_branch _ true _
      (drainTxChannel s.maxTransactionQueueSize s.transactions env.txChannel).2.2 env hfail
    exact ⟨hc.1, hc.2.1.trans rfl, hc.2.2⟩
  · exact fun s e env hfl hns => loopStep_flushed_pending_persists s e env hfl hns

theorem claim_C4_forced_flush_amended_witness :
    (loopStep { initState with transactions := [3], maxTransactionQueueSize := 5 }
        .forceFlush { txChannel := [4], txSendOk := true }).2.txSendAttempted = true ∧
    (loopStep { initState with transactions := [3], maxTransactionQueueSize := 5 }
        .forceFlush { txChannel := [4], txSendOk := true }).2.txCalls =
      (if (drainTxChannel
            ({ initState with transactions := [3],
                              maxTransactionQueueSize := 5 } : LoopState).maxTransactionQueueSize
            ({ initState with transactions := [3],
                              maxTransactionQueueSize := 5 } : LoopState).transactions
            ({ txChannel := [4], txSendOk := true } : Env).txChannel).1.isEmpty
       then []
       else
         [((drainTxChannel
              ({ initState with transactions := [3],
                                maxTransactionQueueSize := 5 } : LoopState).maxTransactionQueueSize
              ({ initState with transactions := [3],
                                maxTransactionQueueSize := 5 } : LoopState).transactions
              ({ txChannel := [4], txSendOk := true } : Env).txChannel).1,
           ({ txChannel := [4], txSendOk := true } : Env).txSendOk)]) ∧
    (loopStep { initState with transactions := [3], maxTransactionQueueSize := 5 }
        .forceFlush { txChannel := [4], txSendOk := true }).2.errCalls =
      (if (errorBatch { initState with transactions := [3], maxTransactionQueueSize := 5 }
            .forceFlush { txChannel := [4], txSendOk := true }).isEmpty
       then []
       else
         [(errorBatch { initState with transactions := [3], maxTransactionQueueSize := 5 }
             .forceFlush { txChannel := [4], txSendOk := true },
           ({ txChannel := [4], txSendOk := true } : Env).errSendOk)]) :=
  claim_C4_forced_flush_amended.1
    { initState with transactions := [3], maxTransactionQueueSize := 5 }
    { txChannel := [4], txSendOk := true } rfl
